import Mathlib

/-!
Verification of the GitHub-analytics collection pipeline
(`db_manager.py`, `github_stats_data.py`, `producer-consumer/producer.py`).

The Python data values are embedded shallowly:

* calendar dates travel through the program as `'YYYY-MM-DD'` strings and are
  compared with Python's string operators, i.e. lexicographically by code
  point; we model a date as `Option String` (`none` models Python `None`, the
  placeholder end date of an in-progress snapshot) and implement the
  code-point lexicographic comparison on `List Char` directly;
* Python dicts that are used as records become structures; dicts used as
  maps (`repos`, `languages`) become association lists in insertion order,
  with Python's assignment semantics (update in place if the key exists,
  append otherwise);
* truthiness (`new_dates_arr[1] and not any([...])`) is modelled by the
  `Bool` the surrounding `all([...])` extracts from it.
-/

/-- Python string `<` restricted to the characters' code points: strict
lexicographic order on the code-point lists.  (All dates in this program are
`'YYYY-MM-DD'` strings, where this coincides with chronological order.) -/
def pyStrLt : List Char → List Char → Bool
  | _, [] => false
  | [], _ :: _ => true
  | a :: as, b :: bs => a.toNat < b.toNat || (a.toNat == b.toNat && pyStrLt as bs)

/-- Python string `<=`: lexicographic on code points. -/
def pyStrLe : List Char → List Char → Bool
  | [], _ => true
  | _ :: _, [] => false
  | a :: as, b :: bs => a.toNat < b.toNat || (a.toNat == b.toNat && pyStrLe as bs)

/-- Python `a <= b` on two strings. -/
def pyLe (a b : String) : Bool := pyStrLe a.data b.data

/-- Python `a < b` on two strings. -/
def pyLt (a b : String) : Bool := pyStrLt a.data b.data

/-- A date as it travels through the program: a `'YYYY-MM-DD'` string, or
Python `None` (the unfinished end of an in-progress snapshot's range). -/
abbrev Date := Option String

/-- A date range `[start_date, end_date]` (list or tuple indexed `[0]`, `[1]`
in the source); by the collection convention the start is the most recent
day, so `end <= start` lexicographically. -/
abbrev DateRange := Date × Date

/-- Python truthiness of a date value: `None` and `''` are falsy, every other
string is truthy. -/
def truthy : Date → Bool
  | none => false
  | some s => !(s == "")

/-- Python `a <= b` lifted to `Date`; comparing a string with `None` raises
`TypeError` in Python, so the `none` rows are junk values that no modelled
execution path reaches (the only `None` date in the program is guarded away
by the short-circuiting truthiness test in `is_date_range_valid`). -/
def dateLe : Date → Date → Bool
  | some a, some b => pyLe a b
  | _, _ => false

/-- Python `a < b` lifted to `Date` (same `TypeError` caveat as `dateLe`). -/
def dateLt : Date → Date → Bool
  | some a, some b => pyLt a b
  | _, _ => false

/-- `DatabaseManager.is_date_range_valid` (db_manager.py:128-139):

    return new_dates_arr[1] and not any([new_dates_arr[1] <= date_range[0] <= new_dates_arr[0] or
                                         new_dates_arr[1] <= date_range[1] <= new_dates_arr[0]
                                         for date_range in existing_dates_arr])

The chained comparison `x <= y <= z` is `x <= y and y <= z`.  The Python
expression evaluates to `new_dates_arr[1]` itself (falsy) or to a `bool`; we
model its truthiness, which is what the caller's `all([...])` consumes. -/
def is_date_range_valid (existing_dates_arr : List DateRange) (new_dates_arr : DateRange) : Bool :=
  truthy new_dates_arr.2 &&
    !(existing_dates_arr.any fun date_range =>
      (dateLe new_dates_arr.2 date_range.1 && dateLe date_range.1 new_dates_arr.1) ||
      (dateLe new_dates_arr.2 date_range.2 && dateLe date_range.2 new_dates_arr.1))

example : is_date_range_valid [(some "2023-05-10", some "2023-05-08")]
    (some "2023-05-07", some "2023-05-05") = true := by decide

example : is_date_range_valid [(some "2023-05-10", some "2023-05-01")]
    (some "2023-05-05", some "2023-05-04") = true := by decide

example : is_date_range_valid [(some "2023-05-05", some "2023-05-04")]
    (some "2023-05-10", some "2023-05-01") = false := by decide

/-- Python dict lookup `d[k]` / `d.get(k)` on a dict modelled as an
association list in insertion order. -/
def dictGet {α : Type} (d : List (String × α)) (k : String) : Option α :=
  match d with
  | [] => none
  | (k', v) :: t => if k' == k then some v else dictGet t k

/-- Python dict assignment `d[k] = v`: overwrite in place if the key exists
(the key keeps its insertion position), append otherwise. -/
def dictSet {α : Type} (d : List (String × α)) (k : String) (v : α) : List (String × α) :=
  if d.any (fun p => p.1 == k) then
    d.map (fun p => if p.1 == k then (p.1, v) else p)
  else d ++ [(k, v)]

/-- One per-repository record of `repo_stats_dict['repos']`
(db_manager.py:54-72, github_stats_data.py:20-38): per-repo `dateRange` is a
list of `(start_date, end_date)` string pairs, `languages` maps a language
name to its `fileSize`. -/
structure RepoRecord where
  dateRange : List DateRange
  totalCommitsInDateRange : Nat
  totalRepoCommits : Nat
  isTDD : Bool
  isDevOps : Bool
  languages : List (String × Nat)
  deriving Repr, DecidableEq

/-- The top-level `repo_stats_dict` (db_manager.py:54-72).  A dict of this
shape has the three keys below, so Python's emptiness guard
`not existing_data or len(existing_data) == 0` is `False` on it; the guard
only fires for the literal empty dict `{}` that seeds `retrieve_collection`,
which is not a snapshot and is kept outside this type. -/
structure Snapshot where
  dateRange : List DateRange
  totalRepoCount : Nat
  repos : List (String × RepoRecord)
  deriving Repr, DecidableEq

/-- `list(repo_stats_dict.keys())`: the top-level keys of the snapshot dict,
in insertion order (github_stats_data.py:91-93). -/
def repo_stats_data_keys : List String := ["dateRange", "totalRepoCount", "repos"]

/-- Python `max((a, b))` on a 2-tuple of dates: the first maximal element. -/
def pairMax (dr : DateRange) : Date := if dateLt dr.1 dr.2 then dr.2 else dr.1

/-- Python `max(list)` for a list of dates (`max` of the empty list raises
`ValueError`; the `none` row is junk for that unreached case). -/
def listMax : List Date → Date
  | [] => none
  | h :: t => t.foldl (fun acc d => if dateLt acc d then d else acc) h

/-- The per-repository update of `merge_formatted_stats_data`
(db_manager.py:157-184), acting on the accumulated `existing_data['repos']`
dict for one iteration of `for repo_name in new_data['repos']`:

* a repo key absent from the existing dict is inserted verbatim (line 160);
* otherwise, if every incoming per-repo range passes
  `is_date_range_valid` against the existing record's ranges, the ranges are
  appended, `totalCommitsInDateRange` is added, and the two flags are OR-ed
  (lines 162-174); if not, the record is left untouched;
* lines 176-184 then replace `totalRepoCommits` and the incoming `languages`
  entries when `max(new[...]['dateRange'][0])` exceeds the maximum date of
  the (just extended) existing range list.  (`dateRange[0]` on the incoming
  record is Python indexing; the `headD` default is junk for the empty-list
  `IndexError` case.) -/
def mergeRepoEntry (exRepos : List (String × RepoRecord)) (repo_name : String)
    (nwRec : RepoRecord) : List (String × RepoRecord) :=
  match dictGet exRepos repo_name with
  | none => exRepos ++ [(repo_name, nwRec)]
  | some exRec =>
    if nwRec.dateRange.all (fun date_range => is_date_range_valid exRec.dateRange date_range) then
      let upd1 : RepoRecord :=
        { exRec with
          dateRange := exRec.dateRange ++ nwRec.dateRange
          totalCommitsInDateRange := exRec.totalCommitsInDateRange + nwRec.totalCommitsInDateRange
          isTDD := exRec.isTDD || nwRec.isTDD
          isDevOps := exRec.isDevOps || nwRec.isDevOps }
      let upd2 : RepoRecord :=
        if dateLt (listMax (upd1.dateRange.map pairMax)) (pairMax (nwRec.dateRange.headD (none, none)))
        then
          { upd1 with
            totalRepoCommits := nwRec.totalRepoCommits
            languages := nwRec.languages.foldl (fun d p => dictSet d p.1 p.2) upd1.languages }
        else upd1
      dictSet exRepos repo_name upd2
    else exRepos

/-- The top-level acceptance test of `merge_formatted_stats_data`
(db_manager.py:151-152):
`all([is_date_range_valid(existing_data['dateRange'], date_range)
      for date_range in new_data['dateRange']])`. -/
def topRangesOk (existing_data new_data : Snapshot) : Bool :=
  new_data.dateRange.all (fun date_range => is_date_range_valid existing_data.dateRange date_range)

/-- `DatabaseManager.merge_formatted_stats_data` (db_manager.py:141-185) for
an `existing_data` argument that is an actual snapshot (three keys, so the
line-149 emptiness guard is `False`; the `{}` base case of line 150 returns
`new_data` and is outside this type).

The Python function mutates `existing_data` in place, so the embedding
returns a pair: the first component is the post-call value of the dict the
caller passed as `existing_data`, the second is the function's return value.
When the acceptance test fails, no statement of the `elif` body runs and
control falls off the end of the function, so Python returns `None`
(modelled as `none`) and the caller's dict is unchanged; when it passes,
`totalRepoCount` is added, line 154 executes
`existing_data['dateRange'] += existing_data['dateRange']` (appending the
existing range list to itself), the repos are folded through
`mergeRepoEntry` in `new_data['repos']` insertion order, and line 185
returns the mutated `existing_data` itself. -/
def merge_formatted_stats_data (existing_data new_data : Snapshot) :
    Snapshot × Option Snapshot :=
  if topRangesOk existing_data new_data then
    let merged : Snapshot :=
      { dateRange := existing_data.dateRange ++ existing_data.dateRange
        totalRepoCount := existing_data.totalRepoCount + new_data.totalRepoCount
        repos := new_data.repos.foldl (fun acc p => mergeRepoEntry acc p.1 p.2)
          existing_data.repos }
    (merged, some merged)
  else (existing_data, none)

/-- Python `needle in hay` on strings: contiguous substring test over the
code-point lists. -/
def pyIn (needle hay : String) : Bool :=
  hay.data.tails.any (fun t => needle.data.isPrefixOf t)

/-- Python `str.upper()` (the keywords and evidence here are ASCII). -/
def pyUpper (s : String) : String := String.map Char.toUpper s

/-- `GitHubStatsData.TDD_STR_MATCHES` (github_stats_data.py:51). -/
def TDD_STR_MATCHES : List String :=
  ["TDD", "BDD", "TEST-DRIVEN", "BEHAVIOR-DRIVEN", "UNIT TEST", "TEST-", "CODE COV"]

/-- `GitHubStatsData.DEVOPS_STR_MATCHES` (github_stats_data.py:52-53). -/
def DEVOPS_STR_MATCHES : List String :=
  ["DEVOPS", "CI", "CI/CD", "CD", "CONTINUOUS INTEGRATION", "CONTINUOUS DE", "ACTIONS", "IAC",
   "IAAS", "PAAS", "KUBERNETES", "ANSIBLE", "TERRAFORM", "AUTOMA", ".YML"]

/-- The keyword scan shared by both classification searches
(github_stats_data.py:169-170 and 183-185):
`any([any([t_str in elem.upper() for t_str in keywords]) for elem in fetched_data])`.
`fetched_data` is the list of evidence strings; for topic data
(`is_topic=True`) the source first projects
`data_element['node']['topic']['name']`, so the elements here are the
already-projected topic names. -/
def keyword_hit (keywords : List String) (fetched_data : List String) : Bool :=
  fetched_data.any fun data_element =>
    keywords.any fun t_str => pyIn t_str (pyUpper data_element)

/-- `GitHubStatsData.search_fetched_data_for_tdd_key_words`
(github_stats_data.py:161-171), acting on the one repository record
`self.repo_stats_data['repos'][repo_owner_name]` it reads and writes: if the
record's `isTDD` is not set and a TDD keyword occurs in the fetched data, set
`isTDD`; otherwise leave the record as it is. -/
def search_fetched_data_for_tdd_key_words (rec : RepoRecord) (fetched_data : List String) :
    RepoRecord :=
  if !rec.isTDD then
    if keyword_hit TDD_STR_MATCHES fetched_data then { rec with isTDD := true } else rec
  else rec

/-- `GitHubStatsData.search_fetched_data_for_devop_key_words`
(github_stats_data.py:173-186), acting on the one repository record it reads
and writes: only when the record's `isTDD` is set and `isDevOps` is not, scan
the fetched data against `DEVOPS_STR_MATCHES` — with the final keyword
dropped (`DEVOPS_STR_MATCHES[:-1]`) when the evidence is workflow file names
(`is_workflow=True`) — and set `isDevOps` on a hit. -/
def search_fetched_data_for_devop_key_words (rec : RepoRecord) (fetched_data : List String)
    (is_workflow : Bool) : RepoRecord :=
  if rec.isTDD && !rec.isDevOps then
    if keyword_hit (if is_workflow then DEVOPS_STR_MATCHES.dropLast else DEVOPS_STR_MATCHES)
        fetched_data then
      { rec with isDevOps := true }
    else rec
  else rec

/-- The discovery guard of
`GitHubStatsData.format_fetched_repo_data_for_stat_analysis`
(github_stats_data.py:214-215):

    if repo_owner_name not in self.repo_stats_data.keys() and \
            repo_data['defaultBranchRef']['target']['committedDate'][:10] == fetch_date_str:

Note the membership test is against the top-level `self.repo_stats_data`
dict — whose keys are `repo_stats_data_keys` — not against
`self.repo_stats_data['repos']`. -/
def discovery_guard (repo_owner_name committedDate fetch_date_str : String) : Bool :=
  !(repo_stats_data_keys.any (fun k => k == repo_owner_name)) &&
    (committedDate.take 10 == fetch_date_str)

/-- The record built for a newly discovered repository
(github_stats_data.py:227-267): commit and range data (lines 227-230), the
flags initialized to `False` and `languages` to `{}` (lines 232-235); when
the repository has no languages the classification is skipped (`continue`,
lines 237-239); otherwise the languages are stored and the six classification
passes run in source order — TDD against topics, workflow file names, then
commit messages; DevOps against topics, workflow file names
(`is_workflow=True`), then commit messages. -/
def build_repo_record (start_date_str end_date : String)
    (date_range_commit_data actions_workflow_file_data topics : List String)
    (languages : List (String × Nat)) (totalCount : Nat) : RepoRecord :=
  let base : RepoRecord :=
    { dateRange := [(some start_date_str, some end_date)]
      totalCommitsInDateRange := date_range_commit_data.length
      totalRepoCommits := totalCount
      isTDD := false
      isDevOps := false
      languages := [] }
  if languages.length == 0 then base
  else
    let base := { base with languages := languages.foldl (fun d p => dictSet d p.1 p.2) [] }
    let base := search_fetched_data_for_tdd_key_words base topics
    let base := search_fetched_data_for_tdd_key_words base actions_workflow_file_data
    let base := search_fetched_data_for_tdd_key_words base date_range_commit_data
    let base := search_fetched_data_for_devop_key_words base topics false
    let base := search_fetched_data_for_devop_key_words base actions_workflow_file_data true
    let base := search_fetched_data_for_devop_key_words base date_range_commit_data false
    base

/-- One iteration of the `for repo_data in repos_data_arr` loop of
`format_fetched_repo_data_for_stat_analysis` (github_stats_data.py:210-267)
for a fetched repository page entry: when `discovery_guard` passes, the
(re-)fetched record is assigned into `self.repo_stats_data['repos']`,
overwriting any record already stored under that key; otherwise the snapshot
is untouched. -/
def process_repo_datum (snap : Snapshot) (repo_owner_name committedDate fetch_date_str : String)
    (start_date_str end_date : String)
    (date_range_commit_data actions_workflow_file_data topics : List String)
    (languages : List (String × Nat)) (totalCount : Nat) : Snapshot :=
  if discovery_guard repo_owner_name committedDate fetch_date_str then
    { snap with
      repos := dictSet snap.repos repo_owner_name
        (build_repo_record start_date_str end_date date_range_commit_data
          actions_workflow_file_data topics languages totalCount) }
  else snap

/-- `Producer.publish` (producer-consumer/producer.py:42):
`consumers_split_num_days = num_days / num_consumers` — Python 3 true
division.  Modelled exactly over `ℚ`; the IEEE double the interpreter
produces is the rounding of this rational and is an integer only when the
rational is (for the divisions of interest, e.g. `17 / 5`, neither is). -/
def consumers_split_num_days (num_days num_consumers : ℕ) : ℚ :=
  (num_days : ℚ) / (num_consumers : ℚ)

/-- `Producer.publish` (producer-consumer/producer.py:46): the per-consumer
block size `consumers_split_num_days + (1 if num_days % num_consumers > consumer_id else 0)`,
passed to `GitHubStatsData` as `num_days_fetch`. -/
def consumer_split_num_days (num_days num_consumers consumer_id : ℕ) : ℚ :=
  consumers_split_num_days num_days num_consumers +
    (if num_days % num_consumers > consumer_id then 1 else 0)

/-- `Producer.publish` (producer-consumer/producer.py:44-45): the number of
days each consumer's start date is offset back from the global start date,
`consumers_split_num_days * consumer_id + min(consumer_id, num_days % num_consumers)`. -/
def consumer_start_offset (num_days num_consumers consumer_id : ℕ) : ℚ :=
  consumers_split_num_days num_days num_consumers * (consumer_id : ℚ) +
    (min consumer_id (num_days % num_consumers) : ℕ)

lemma pyStrLe_trans : ∀ (a b c : List Char),
    pyStrLe a b = true → pyStrLe b c = true → pyStrLe a c = true
  | [], _, _, _, _ => by simp [pyStrLe]
  | _ :: _, [], _, h1, _ => by simp [pyStrLe] at h1
  | _ :: _, _ :: _, [], _, h2 => by simp [pyStrLe] at h2
  | a :: as, b :: bs, c :: cs, h1, h2 => by
    simp only [pyStrLe, Bool.or_eq_true, Bool.and_eq_true, decide_eq_true_eq,
      beq_iff_eq] at h1 h2 ⊢
    rcases h1 with h1 | ⟨h1e, h1r⟩ <;> rcases h2 with h2 | ⟨h2e, h2r⟩
    · exact Or.inl (h1.trans h2)
    · exact Or.inl (h2e ▸ h1)
    · exact Or.inl (h1e ▸ h2)
    · exact Or.inr ⟨h1e.trans h2e, pyStrLe_trans as bs cs h1r h2r⟩

lemma pyLe_trans {a b c : String} (h1 : pyLe a b = true) (h2 : pyLe b c = true) :
    pyLe a c = true :=
  pyStrLe_trans a.data b.data c.data h1 h2

example : pyLe "2023-05-05" "2023-05-10" = true := by decide
example : pyLe "2023-05-10" "2023-05-05" = false := by decide

/-- `merge_formatted_stats_data` evaluated at a rejected merge: the existing
snapshot covers `2023-05-10 .. 2023-05-05` and the incoming snapshot's only
range `2023-05-12 .. 2023-05-08` overlaps it (the existing start falls inside
it), so the `elif` guard is `False`; control falls off the end of the
function, which therefore returns Python `None` — not the existing snapshot —
while the caller's `existing_data` dict is left unchanged. -/
theorem merge_rejection_returns_none :
    merge_formatted_stats_data
      { dateRange := [(some "2023-05-10", some "2023-05-05")]
        totalRepoCount := 1
        repos := [] }
      { dateRange := [(some "2023-05-12", some "2023-05-08")]
        totalRepoCount := 2
        repos := [] } =
    ({ dateRange := [(some "2023-05-10", some "2023-05-05")]
       totalRepoCount := 1
       repos := [] }, none) := by decide

/-- `merge_formatted_stats_data` evaluated at an accepted merge of two
disjoint single-range snapshots: line 154 appends the existing range list to
itself, so the merged `dateRange` is the existing range twice and the
incoming range `2023-05-04 .. 2023-05-01` is lost, while `totalRepoCount`
does accumulate to `1 + 2 = 3`. -/
theorem merge_appends_existing_ranges_to_itself :
    (merge_formatted_stats_data
      { dateRange := [(some "2023-05-10", some "2023-05-05")]
        totalRepoCount := 1
        repos := [] }
      { dateRange := [(some "2023-05-04", some "2023-05-01")]
        totalRepoCount := 2
        repos := [] }).2 =
      some { dateRange := [(some "2023-05-10", some "2023-05-05"),
                           (some "2023-05-10", some "2023-05-05")]
             totalRepoCount := 3
             repos := [] } ∧
    [((some "2023-05-10" : Date), (some "2023-05-05" : Date)),
     (some "2023-05-10", some "2023-05-05")] ≠
      [((some "2023-05-10" : Date), (some "2023-05-05" : Date)),
       (some "2023-05-04", some "2023-05-01")] := by decide

/-- `Producer.publish` at `num_days = 17`, `num_consumers = 5`: because line
42 uses Python true division, the five `num_days_fetch` block sizes are
`22/5, 22/5, 17/5, 17/5, 17/5` — fractional, summing to `19`, and not the
floor-division blocks `4, 4, 3, 3, 3` (which sum to `17`).  A fractional
`num_days_fetch` also crashes the consumer, whose collection loop runs
`range(self.num_days_fetch)`. -/
theorem publish_split_true_division :
    [consumer_split_num_days 17 5 0, consumer_split_num_days 17 5 1,
     consumer_split_num_days 17 5 2, consumer_split_num_days 17 5 3,
     consumer_split_num_days 17 5 4] = [22/5, 22/5, 17/5, 17/5, 17/5] ∧
    [consumer_split_num_days 17 5 0, consumer_split_num_days 17 5 1,
     consumer_split_num_days 17 5 2, consumer_split_num_days 17 5 3,
     consumer_split_num_days 17 5 4] ≠ [4, 4, 3, 3, 3] ∧
    consumer_split_num_days 17 5 0 + consumer_split_num_days 17 5 1 +
      consumer_split_num_days 17 5 2 + consumer_split_num_days 17 5 3 +
      consumer_split_num_days 17 5 4 = 19 := by
  refine ⟨?_, ?_, ?_⟩ <;>
    norm_num [consumer_split_num_days, consumers_split_num_days]

/-- The collection loop's discovery step evaluated at a repository that is
already present in the accumulated snapshot's `repos` mapping: because line
214 tests membership against the top-level `self.repo_stats_data.keys()`
(`dateRange`/`totalRepoCount`/`repos`) instead of
`self.repo_stats_data['repos'].keys()`, the guard still passes; the
repository is re-fetched and its stored record — `isTDD = true`,
`totalCommitsInDateRange = 7` — is overwritten by a freshly initialized
record (flags reset to `false`), so first-seen-wins does not hold. -/
theorem rediscovery_overwrites_record :
    discovery_guard "alice/repo1" "2023-05-09T10:00:00Z" "2023-05-09" = true ∧
    dictGet
      ({ dateRange := [(some "2023-05-09", none)]
         totalRepoCount := 5
         repos := [("alice/repo1",
           { dateRange := [(some "2023-05-09", some "2023-05-01")]
             totalCommitsInDateRange := 7
             totalRepoCommits := 20
             isTDD := true
             isDevOps := true
             languages := [("Python", 100)] })] } : Snapshot).repos "alice/repo1" =
      some { dateRange := [(some "2023-05-09", some "2023-05-01")]
             totalCommitsInDateRange := 7
             totalRepoCommits := 20
             isTDD := true
             isDevOps := true
             languages := [("Python", 100)] } ∧
    dictGet
      (process_repo_datum
        { dateRange := [(some "2023-05-09", none)]
          totalRepoCount := 5
          repos := [("alice/repo1",
            { dateRange := [(some "2023-05-09", some "2023-05-01")]
              totalCommitsInDateRange := 7
              totalRepoCommits := 20
              isTDD := true
              isDevOps := true
              languages := [("Python", 100)] })] }
        "alice/repo1" "2023-05-09T10:00:00Z" "2023-05-09"
        "2023-05-09" "2023-05-01" [] [] [] [] 20).repos "alice/repo1" =
      some { dateRange := [(some "2023-05-09", some "2023-05-01")]
             totalCommitsInDateRange := 0
             totalRepoCommits := 20
             isTDD := false
             isDevOps := false
             languages := [] } ∧
    ({ dateRange := [(some "2023-05-09", some "2023-05-01")]
       totalCommitsInDateRange := 0
       totalRepoCommits := 20
       isTDD := false
       isDevOps := false
       languages := [] } : RepoRecord) ≠
      { dateRange := [(some "2023-05-09", some "2023-05-01")]
        totalCommitsInDateRange := 7
        totalRepoCommits := 20
        isTDD := true
        isDevOps := true
        languages := [("Python", 100)] } := by decide

/-- One direction of the range-overlap symmetry: if an endpoint of the
descending range `(a0, a1)` lies in the interval of `(b0, b1)` and `(a0, a1)`
is not strictly nested inside `(b0, b1)`'s interval, then an endpoint of
`(b0, b1)` lies in the interval of `(a0, a1)`. -/
lemma endpoint_in_range_mp (a0 a1 b0 b1 : String)
    (ha : pyLe a1 a0 = true)
    (hn : pyLe a1 b1 = true ∨ pyLe b0 a0 = true)
    (hyp : ((pyLe b1 a0 && pyLe a0 b0) || (pyLe b1 a1 && pyLe a1 b0)) = true) :
    ((pyLe a1 b0 && pyLe b0 a0) || (pyLe a1 b1 && pyLe b1 a0)) = true := by
  simp only [Bool.or_eq_true, Bool.and_eq_true] at hyp ⊢
  rcases hyp with ⟨h3, h4⟩ | ⟨h3, h4⟩
  · rcases hn with hn | hn
    · exact Or.inr ⟨hn, h3⟩
    · exact Or.inl ⟨pyLe_trans ha h4, hn⟩
  · rcases hn with hn | hn
    · exact Or.inr ⟨hn, pyLe_trans h3 ha⟩
    · exact Or.inl ⟨h4, hn⟩

/-- The disjointness test is not symmetric on the code: for the descending
ranges `a = 2023-05-10 .. 2023-05-01` and `b = 2023-05-05 .. 2023-05-04`
(all four endpoints present), `b`'s interval is strictly nested inside `a`'s,
and `is_date_range_valid([a], b)` accepts while
`is_date_range_valid([b], a)` rejects — the test only looks for endpoints of
the existing ranges inside the new range's interval. -/
theorem date_range_disjointness_asymmetric_counterexample :
    pyLe "2023-05-01" "2023-05-10" = true ∧ pyLe "2023-05-04" "2023-05-05" = true ∧
    is_date_range_valid [(some "2023-05-10", some "2023-05-01")]
      (some "2023-05-05", some "2023-05-04") = true ∧
    is_date_range_valid [(some "2023-05-05", some "2023-05-04")]
      (some "2023-05-10", some "2023-05-01") = false := by decide

/-- Amended symmetry: for descending ranges `(a0, a1)` and `(b0, b1)` with
all endpoints present (non-empty strings), the single-range disjointness test
is symmetric provided neither range's interval is strictly nested inside the
other's — i.e. `a1 <= b1` or `b0 <= a0`, and `b1 <= a1` or `a0 <= b0`. -/
theorem date_range_disjointness_symmetric_amended (a0 a1 b0 b1 : String)
    (ha : pyLe a1 a0 = true) (hb : pyLe b1 b0 = true)
    (ha1 : (a1 == "") = false) (hb1 : (b1 == "") = false)
    (hn1 : pyLe a1 b1 = true ∨ pyLe b0 a0 = true)
    (hn2 : pyLe b1 a1 = true ∨ pyLe a0 b0 = true) :
    is_date_range_valid [(some a0, some a1)] (some b0, some b1) =
      is_date_range_valid [(some b0, some b1)] (some a0, some a1) := by
  have hpq := endpoint_in_range_mp a0 a1 b0 b1 ha hn1
  have hqp := endpoint_in_range_mp b0 b1 a0 a1 hb hn2
  simp only [is_date_range_valid, truthy, dateLe, List.any_cons, List.any_nil,
    Bool.or_false, ha1, hb1, Bool.not_false, Bool.true_and]
  cases hX : ((pyLe b1 a0 && pyLe a0 b0) || (pyLe b1 a1 && pyLe a1 b0)) <;>
    cases hY : ((pyLe a1 b0 && pyLe b0 a0) || (pyLe a1 b1 && pyLe b1 a0)) <;>
      simp_all

/-- Instance of `date_range_disjointness_symmetric_amended` at the concrete
non-nested ranges `2023-05-10 .. 2023-05-08` and `2023-05-07 .. 2023-05-05`. -/
theorem date_range_disjointness_symmetric_amended_witness :
    is_date_range_valid [(some "2023-05-10", some "2023-05-08")]
      (some "2023-05-07", some "2023-05-05") =
      is_date_range_valid [(some "2023-05-07", some "2023-05-05")]
        (some "2023-05-10", some "2023-05-08") :=
  date_range_disjointness_symmetric_amended "2023-05-10" "2023-05-08" "2023-05-07" "2023-05-05"
    (by decide) (by decide) (by decide) (by decide)
    (Or.inr (by decide)) (Or.inl (by decide))

lemma is_date_range_valid_append_self (E : List DateRange) (r : DateRange) :
    is_date_range_valid (E ++ E) r = is_date_range_valid E r := by
  simp [is_date_range_valid, List.any_append]

/-- The merge is not side-effect-free: at two disjoint single-range snapshots
the post-call value of the caller's `existing_data` dict differs from the
value passed in (`totalRepoCount` grew and the range list doubled), and
repeating the call with the same incoming snapshot changes the result again
(`totalRepoCount` grows a second time), so the call is not idempotent. -/
theorem merge_mutates_existing_counterexample :
    (merge_formatted_stats_data
        { dateRange := [(some "2023-04-10", some "2023-04-05")]
          totalRepoCount := 1
          repos := [] }
        { dateRange := [(some "2023-04-04", some "2023-04-01")]
          totalRepoCount := 2
          repos := [] }).1 ≠
      { dateRange := [(some "2023-04-10", some "2023-04-05")]
        totalRepoCount := 1
        repos := [] } ∧
    (merge_formatted_stats_data
        (merge_formatted_stats_data
          { dateRange := [(some "2023-04-10", some "2023-04-05")]
            totalRepoCount := 1
            repos := [] }
          { dateRange := [(some "2023-04-04", some "2023-04-01")]
            totalRepoCount := 2
            repos := [] }).1
        { dateRange := [(some "2023-04-04", some "2023-04-01")]
          totalRepoCount := 2
          repos := [] }).1.totalRepoCount ≠
      (merge_formatted_stats_data
        { dateRange := [(some "2023-04-10", some "2023-04-05")]
          totalRepoCount := 1
          repos := [] }
        { dateRange := [(some "2023-04-04", some "2023-04-01")]
          totalRepoCount := 2
          repos := [] }).1.totalRepoCount := by decide

/-- Amended behaviour of the merge under acceptance: it is deterministic in
its input values, the returned snapshot is exactly the updated value of the
caller's `existing_data` (the function returns the dict it just mutated),
and — because line 154 never records the incoming ranges — an immediate
second call with the same incoming snapshot passes validation again and adds
`totalRepoCount` a second time, so the call is not idempotent. -/
theorem merge_in_place_update_amended (ex nw : Snapshot)
    (h : topRangesOk ex nw = true) :
    (merge_formatted_stats_data ex nw).2 = some (merge_formatted_stats_data ex nw).1 ∧
    topRangesOk (merge_formatted_stats_data ex nw).1 nw = true ∧
    (merge_formatted_stats_data (merge_formatted_stats_data ex nw).1 nw).1.totalRepoCount =
      ex.totalRepoCount + nw.totalRepoCount + nw.totalRepoCount := by
  have htop2 : topRangesOk (merge_formatted_stats_data ex nw).1 nw = true := by
    simp only [merge_formatted_stats_data, h, if_true]
    simpa [topRangesOk, is_date_range_valid_append_self] using h
  refine ⟨?_, htop2, ?_⟩
  · simp [merge_formatted_stats_data, h]
  · simp only [merge_formatted_stats_data, h, if_true] at htop2 ⊢
    simp [htop2]

/-- Instance of `merge_in_place_update_amended` at two concrete disjoint
single-range snapshots. -/
theorem merge_in_place_update_amended_witness :
    (merge_formatted_stats_data
        { dateRange := [(some "2023-07-10", some "2023-07-05")]
          totalRepoCount := 3
          repos := [] }
        { dateRange := [(some "2023-07-04", some "2023-07-01")]
          totalRepoCount := 4
          repos := [] }).2 =
      some (merge_formatted_stats_data
        { dateRange := [(some "2023-07-10", some "2023-07-05")]
          totalRepoCount := 3
          repos := [] }
        { dateRange := [(some "2023-07-04", some "2023-07-01")]
          totalRepoCount := 4
          repos := [] }).1 ∧
    topRangesOk
      (merge_formatted_stats_data
        { dateRange := [(some "2023-07-10", some "2023-07-05")]
          totalRepoCount := 3
          repos := [] }
        { dateRange := [(some "2023-07-04", some "2023-07-01")]
          totalRepoCount := 4
          repos := [] }).1
      { dateRange := [(some "2023-07-04", some "2023-07-01")]
        totalRepoCount := 4
        repos := [] } = true ∧
    (merge_formatted_stats_data
      (merge_formatted_stats_data
        { dateRange := [(some "2023-07-10", some "2023-07-05")]
          totalRepoCount := 3
          repos := [] }
        { dateRange := [(some "2023-07-04", some "2023-07-01")]
          totalRepoCount := 4
          repos := [] }).1
      { dateRange := [(some "2023-07-04", some "2023-07-01")]
        totalRepoCount := 4
        repos := [] }).1.totalRepoCount = 3 + 4 + 4 :=
  merge_in_place_update_amended
    { dateRange := [(some "2023-07-10", some "2023-07-05")]
      totalRepoCount := 3
      repos := [] }
    { dateRange := [(some "2023-07-04", some "2023-07-01")]
      totalRepoCount := 4
      repos := [] }
    (by decide)

/-- A top-level date range whose end is Python `None` or the empty string is
falsy for `is_date_range_valid` (the `new_dates_arr[1] and ...` short-circuit)
no matter what the existing ranges are, so an incoming snapshot containing
such a range never passes the line-151 validation against an existing
snapshot: the merge falls through, leaving the existing snapshot unchanged
(and returning `None`). -/
theorem unfinished_end_date_never_merges :
    (∀ (existing : List DateRange) (s : Date),
      is_date_range_valid existing (s, none) = false ∧
      is_date_range_valid existing (s, some "") = false) ∧
    (∀ (ex nw : Snapshot) (s : Date),
      ((s, (none : Date)) ∈ nw.dateRange ∨ (s, (some "" : Date)) ∈ nw.dateRange) →
      merge_formatted_stats_data ex nw = (ex, none)) := by
  constructor
  · intro existing s
    constructor <;> simp [is_date_range_valid, truthy]
  · intro ex nw s h
    cases htop : topRangesOk ex nw with
    | true =>
      exfalso
      rcases h with h | h <;>
        · have := List.all_eq_true.mp (by simpa [topRangesOk] using htop) _ h
          simp [is_date_range_valid, truthy] at this
    | false => simp [merge_formatted_stats_data, htop]

/-- Instance of `unfinished_end_date_never_merges` at a concrete in-progress
incoming snapshot whose only range end is still `None`. -/
theorem unfinished_end_date_never_merges_witness :
    merge_formatted_stats_data
      { dateRange := [(some "2023-02-02", some "2023-02-01")]
        totalRepoCount := 1
        repos := [] }
      { dateRange := [(some "2023-03-01", none)]
        totalRepoCount := 4
        repos := [] } =
    ({ dateRange := [(some "2023-02-02", some "2023-02-01")]
       totalRepoCount := 1
       repos := [] }, none) :=
  unfinished_end_date_never_merges.2
    { dateRange := [(some "2023-02-02", some "2023-02-01")]
      totalRepoCount := 1
      repos := [] }
    { dateRange := [(some "2023-03-01", none)]
      totalRepoCount := 4
      repos := [] }
    (some "2023-03-01") (Or.inl (by decide))

lemma dictGet_append_left {α : Type} {d : List (String × α)} {k : String} {v : α}
    (h : dictGet d k = some v) (e : List (String × α)) :
    dictGet (d ++ e) k = some v := by
  induction d with
  | nil => simp [dictGet] at h
  | cons p t ih =>
    obtain ⟨a, b⟩ := p
    rw [List.cons_append]
    simp only [dictGet] at h ⊢
    by_cases hak : (a == k) = true
    · rw [if_pos hak] at h ⊢
      exact h
    · rw [if_neg hak] at h ⊢
      exact ih h

lemma dictGet_append_single {α : Type} (d : List (String × α)) (k : String) (v : α)
    (h : (d.any fun p => p.1 == k) = false) :
    dictGet (d ++ [(k, v)]) k = some v := by
  induction d with
  | nil => simp [dictGet]
  | cons p t ih =>
    obtain ⟨a, b⟩ := p
    rw [List.any_cons, Bool.or_eq_false_iff] at h
    rw [List.cons_append]
    simp only [dictGet]
    rw [if_neg (by simp [h.1])]
    exact ih h.2

lemma dictGet_append_single_ne {α : Type} (d : List (String × α)) (k k' : String) (v : α)
    (hne : ¬k' = k) :
    dictGet (d ++ [(k, v)]) k' = dictGet d k' := by
  induction d with
  | nil =>
    simp only [List.nil_append, dictGet]
    rw [if_neg (by simp; exact fun he => hne he.symm)]
  | cons p t ih =>
    obtain ⟨a, b⟩ := p
    rw [List.cons_append]
    simp only [dictGet]
    by_cases hak' : (a == k') = true
    · rw [if_pos hak', if_pos hak']
    · rw [if_neg hak', if_neg hak']
      exact ih

lemma dictGet_map_set_self {α : Type} (d : List (String × α)) (k : String) (v : α)
    (h : (d.any fun p => p.1 == k) = true) :
    dictGet (d.map fun p => if p.1 == k then (p.1, v) else p) k = some v := by
  induction d with
  | nil => simp at h
  | cons p t ih =>
    obtain ⟨a, b⟩ := p
    rw [List.map_cons]
    dsimp only
    by_cases hak : (a == k) = true
    · rw [if_pos hak]
      simp only [dictGet]
      rw [if_pos hak]
    · rw [if_neg hak]
      simp only [dictGet]
      rw [if_neg hak]
      apply ih
      rw [Bool.not_eq_true] at hak
      simpa [hak] using h

lemma dictGet_map_set_ne {α : Type} (d : List (String × α)) (k k' : String) (v : α)
    (hne : ¬k' = k) :
    dictGet (d.map fun p => if p.1 == k then (p.1, v) else p) k' = dictGet d k' := by
  induction d with
  | nil => rfl
  | cons p t ih =>
    obtain ⟨a, b⟩ := p
    rw [List.map_cons]
    dsimp only
    by_cases hak : (a == k) = true
    · rw [if_pos hak]
      simp only [dictGet]
      by_cases hak' : (a == k') = true
      · exfalso
        apply hne
        have h1 : a = k := beq_iff_eq.mp hak
        have h2 : a = k' := beq_iff_eq.mp hak'
        rw [← h2, h1]
      · rw [if_neg hak', if_neg hak']
        exact ih
    · rw [if_neg hak]
      simp only [dictGet]
      by_cases hak' : (a == k') = true
      · rw [if_pos hak', if_pos hak']
      · rw [if_neg hak', if_neg hak']
        exact ih

lemma dictGet_dictSet_self {α : Type} (d : List (String × α)) (k : String) (v : α) :
    dictGet (dictSet d k v) k = some v := by
  unfold dictSet
  by_cases hmem : (d.any fun p => p.1 == k) = true
  · rw [if_pos hmem]
    exact dictGet_map_set_self d k v hmem
  · rw [if_neg hmem]
    exact dictGet_append_single d k v (Bool.not_eq_true _ ▸ hmem)

lemma dictGet_dictSet_ne {α : Type} (d : List (String × α)) (k k' : String) (v : α)
    (hne : ¬k' = k) :
    dictGet (dictSet d k v) k' = dictGet d k' := by
  unfold dictSet
  by_cases hmem : (d.any fun p => p.1 == k) = true
  · rw [if_pos hmem]
    exact dictGet_map_set_ne d k k' v hne
  · rw [if_neg hmem]
    exact dictGet_append_single_ne d k k' v hne

/-- Evaluation of `mergeRepoEntry` when the key is already present and the
incoming per-repo ranges pass validation: the stored record gets the appended
ranges, the summed in-range commit counter, and the OR-ed flags. -/
lemma mergeRepoEntry_get_self (exRepos : List (String × RepoRecord)) (name : String)
    (exRec nwRec : RepoRecord)
    (hget : dictGet exRepos name = some exRec)
    (hok : (nwRec.dateRange.all fun r => is_date_range_valid exRec.dateRange r) = true) :
    ∃ rec, dictGet (mergeRepoEntry exRepos name nwRec) name = some rec ∧
      rec.dateRange = exRec.dateRange ++ nwRec.dateRange ∧
      rec.totalCommitsInDateRange =
        exRec.totalCommitsInDateRange + nwRec.totalCommitsInDateRange ∧
      rec.isTDD = (exRec.isTDD || nwRec.isTDD) ∧
      rec.isDevOps = (exRec.isDevOps || nwRec.isDevOps) := by
  unfold mergeRepoEntry
  rw [hget]
  simp only [hok, if_true]
  refine ⟨_, dictGet_dictSet_self _ _ _, ?_, ?_, ?_, ?_⟩ <;> (dsimp only; split <;> rfl)

/-- For a repository key present in both snapshots whose incoming per-repo
ranges all pass the disjointness check against the stored record, an accepted
merge (here with the repository as the incoming snapshot's single `repos`
entry) stores a record whose `totalCommitsInDateRange` is the sum of the two
counters, whose per-repo `dateRange` is the existing list followed by the
incoming list, and whose `isTDD`/`isDevOps` flags are the OR of the two
inputs' flags. -/
theorem merge_repo_disjoint_accumulates
    (ex : Snapshot) (dr : List DateRange) (trc : Nat) (name : String)
    (exRec nwRec : RepoRecord)
    (htop : topRangesOk ex
      { dateRange := dr, totalRepoCount := trc, repos := [(name, nwRec)] } = true)
    (hget : dictGet ex.repos name = some exRec)
    (hok : (nwRec.dateRange.all fun r => is_date_range_valid exRec.dateRange r) = true) :
    ((dictGet ((merge_formatted_stats_data ex
        { dateRange := dr, totalRepoCount := trc, repos := [(name, nwRec)] }).1).repos
          name).map RepoRecord.totalCommitsInDateRange =
      some (exRec.totalCommitsInDateRange + nwRec.totalCommitsInDateRange)) ∧
    ((dictGet ((merge_formatted_stats_data ex
        { dateRange := dr, totalRepoCount := trc, repos := [(name, nwRec)] }).1).repos
          name).map RepoRecord.dateRange =
      some (exRec.dateRange ++ nwRec.dateRange)) ∧
    ((dictGet ((merge_formatted_stats_data ex
        { dateRange := dr, totalRepoCount := trc, repos := [(name, nwRec)] }).1).repos
          name).map RepoRecord.isTDD = some (exRec.isTDD || nwRec.isTDD)) ∧
    ((dictGet ((merge_formatted_stats_data ex
        { dateRange := dr, totalRepoCount := trc, repos := [(name, nwRec)] }).1).repos
          name).map RepoRecord.isDevOps = some (exRec.isDevOps || nwRec.isDevOps)) := by
  obtain ⟨rec, hrec, hdr, htc, htdd, hdev⟩ := mergeRepoEntry_get_self ex.repos name exRec nwRec hget hok
  have hrepos : ((merge_formatted_stats_data ex
      { dateRange := dr, totalRepoCount := trc, repos := [(name, nwRec)] }).1).repos =
      mergeRepoEntry ex.repos name nwRec := by
    simp [merge_formatted_stats_data, htop]
  rw [hrepos, hrec]
  simp [Option.map, hdr, htc, htdd, hdev]

/-- Instance of `merge_repo_disjoint_accumulates` at the spec's concrete
example: `alice/repo1` seen in `2023-05-10 .. 2023-05-08` with 3 in-range
commits, merged with a fetch of the same repository over the disjoint range
`2023-05-07 .. 2023-05-05` with 2 in-range commits, yielding 5 commits, both
range entries, and OR-ed flags. -/
theorem merge_repo_disjoint_accumulates_witness :
    ((dictGet ((merge_formatted_stats_data
        { dateRange := [(some "2023-06-10", some "2023-06-01")]
          totalRepoCount := 1
          repos := [("alice/repo1",
            { dateRange := [(some "2023-05-10", some "2023-05-08")]
              totalCommitsInDateRange := 3
              totalRepoCommits := 10
              isTDD := true
              isDevOps := false
              languages := [("Python", 50)] })] }
        { dateRange := [(some "2023-05-30", some "2023-05-20")]
          totalRepoCount := 2
          repos := [("alice/repo1",
            { dateRange := [(some "2023-05-07", some "2023-05-05")]
              totalCommitsInDateRange := 2
              totalRepoCommits := 12
              isTDD := false
              isDevOps := true
              languages := [("Go", 70)] })] }).1).repos
        "alice/repo1").map RepoRecord.totalCommitsInDateRange = some (3 + 2)) ∧
    ((dictGet ((merge_formatted_stats_data
        { dateRange := [(some "2023-06-10", some "2023-06-01")]
          totalRepoCount := 1
          repos := [("alice/repo1",
            { dateRange := [(some "2023-05-10", some "2023-05-08")]
              totalCommitsInDateRange := 3
              totalRepoCommits := 10
              isTDD := true
              isDevOps := false
              languages := [("Python", 50)] })] }
        { dateRange := [(some "2023-05-30", some "2023-05-20")]
          totalRepoCount := 2
          repos := [("alice/repo1",
            { dateRange := [(some "2023-05-07", some "2023-05-05")]
              totalCommitsInDateRange := 2
              totalRepoCommits := 12
              isTDD := false
              isDevOps := true
              languages := [("Go", 70)] })] }).1).repos
        "alice/repo1").map RepoRecord.dateRange =
      some ([(some "2023-05-10", some "2023-05-08")] ++
        [(some "2023-05-07", some "2023-05-05")])) ∧
    ((dictGet ((merge_formatted_stats_data
        { dateRange := [(some "2023-06-10", some "2023-06-01")]
          totalRepoCount := 1
          repos := [("alice/repo1",
            { dateRange := [(some "2023-05-10", some "2023-05-08")]
              totalCommitsInDateRange := 3
              totalRepoCommits := 10
              isTDD := true
              isDevOps := false
              languages := [("Python", 50)] })] }
        { dateRange := [(some "2023-05-30", some "2023-05-20")]
          totalRepoCount := 2
          repos := [("alice/repo1",
            { dateRange := [(some "2023-05-07", some "2023-05-05")]
              totalCommitsInDateRange := 2
              totalRepoCommits := 12
              isTDD := false
              isDevOps := true
              languages := [("Go", 70)] })] }).1).repos
        "alice/repo1").map RepoRecord.isTDD = some (true || false)) ∧
    ((dictGet ((merge_formatted_stats_data
        { dateRange := [(some "2023-06-10", some "2023-06-01")]
          totalRepoCount := 1
          repos := [("alice/repo1",
            { dateRange := [(some "2023-05-10", some "2023-05-08")]
              totalCommitsInDateRange := 3
              totalRepoCommits := 10
              isTDD := true
              isDevOps := false
              languages := [("Python", 50)] })] }
        { dateRange := [(some "2023-05-30", some "2023-05-20")]
          totalRepoCount := 2
          repos := [("alice/repo1",
            { dateRange := [(some "2023-05-07", some "2023-05-05")]
              totalCommitsInDateRange := 2
              totalRepoCommits := 12
              isTDD := false
              isDevOps := true
              languages := [("Go", 70)] })] }).1).repos
        "alice/repo1").map RepoRecord.isDevOps = some (false || true)) :=
  merge_repo_disjoint_accumulates
    { dateRange := [(some "2023-06-10", some "2023-06-01")]
      totalRepoCount := 1
      repos := [("alice/repo1",
        { dateRange := [(some "2023-05-10", some "2023-05-08")]
          totalCommitsInDateRange := 3
          totalRepoCommits := 10
          isTDD := true
          isDevOps := false
          languages := [("Python", 50)] })] }
    [(some "2023-05-30", some "2023-05-20")] 2 "alice/repo1"
    { dateRange := [(some "2023-05-10", some "2023-05-08")]
      totalCommitsInDateRange := 3
      totalRepoCommits := 10
      isTDD := true
      isDevOps := false
      languages := [("Python", 50)] }
    { dateRange := [(some "2023-05-07", some "2023-05-05")]
      totalCommitsInDateRange := 2
      totalRepoCommits := 12
      isTDD := false
      isDevOps := true
      languages := [("Go", 70)] }
    (by decide) (by decide) (by decide)

/-- One `mergeRepoEntry` step never turns a stored record's `isTDD` or
`isDevOps` flag from `true` back to `false`, whichever repository the step
is processing. -/
lemma mergeRepoEntry_preserves_flags (acc : List (String × RepoRecord)) (k : String)
    (v : RepoRecord) (name : String) (r : RepoRecord)
    (h : dictGet acc name = some r) :
    ∃ r', dictGet (mergeRepoEntry acc k v) name = some r' ∧
      (r.isTDD = true → r'.isTDD = true) ∧
      (r.isDevOps = true → r'.isDevOps = true) := by
  unfold mergeRepoEntry
  cases hk : dictGet acc k with
  | none =>
    exact ⟨r, dictGet_append_left h _, fun hh => hh, fun hh => hh⟩
  | some exRec =>
    cases hall : (v.dateRange.all fun date_range => is_date_range_valid exRec.dateRange date_range) with
    | false =>
      simp only [hall, Bool.false_eq_true, if_false]
      exact ⟨r, h, fun hh => hh, fun hh => hh⟩
    | true =>
      simp only [hall, if_true]
      by_cases hkn : k = name
      · subst hkn
        rw [h] at hk
        injection hk with he
        subst he
        refine ⟨_, dictGet_dictSet_self _ _ _, ?_, ?_⟩ <;>
          (intro hh; split <;> simp [hh])
      · refine ⟨r, ?_, fun hh => hh, fun hh => hh⟩
        rw [dictGet_dictSet_ne _ _ _ _ fun he => hkn he.symm]
        exact h

/-- Folding any list of incoming repository entries through `mergeRepoEntry`
never turns a stored record's flags from `true` back to `false`. -/
lemma mergeRepos_preserve_flags :
    ∀ (l : List (String × RepoRecord)) (acc : List (String × RepoRecord))
      (name : String) (r : RepoRecord), dictGet acc name = some r →
      ∃ r', dictGet (l.foldl (fun a p => mergeRepoEntry a p.1 p.2) acc) name = some r' ∧
        (r.isTDD = true → r'.isTDD = true) ∧
        (r.isDevOps = true → r'.isDevOps = true)
  | [], _, _, r, h => ⟨r, h, fun hh => hh, fun hh => hh⟩
  | (k, v) :: t, acc, name, r, h => by
    obtain ⟨r1, h1, h2, h3⟩ := mergeRepoEntry_preserves_flags acc k v name r h
    obtain ⟨r', h1', h2', h3'⟩ :=
      mergeRepos_preserve_flags t (mergeRepoEntry acc k v) name r1 h1
    exact ⟨r', by simpa using h1', fun hh => h2' (h2 hh), fun hh => h3' (h3 hh)⟩

/-- `isTDD` and `isDevOps` are sticky: the TDD keyword search never writes
`isDevOps` and never clears a set `isTDD`; the DevOps keyword search never
writes `isTDD` and never clears a set `isDevOps`; and an accepted merge keeps
every stored repository's set flag set (new keys are inserted, known keys
keep or OR their flags). -/
theorem classification_flags_sticky :
    (∀ (rec : RepoRecord) (fetched_data : List String),
      (search_fetched_data_for_tdd_key_words rec fetched_data).isDevOps = rec.isDevOps ∧
      (rec.isTDD = true →
        (search_fetched_data_for_tdd_key_words rec fetched_data).isTDD = true)) ∧
    (∀ (rec : RepoRecord) (fetched_data : List String) (is_workflow : Bool),
      (search_fetched_data_for_devop_key_words rec fetched_data is_workflow).isTDD = rec.isTDD ∧
      (rec.isDevOps = true →
        (search_fetched_data_for_devop_key_words rec fetched_data is_workflow).isDevOps = true)) ∧
    (∀ (ex nw : Snapshot) (name : String) (r : RepoRecord),
      dictGet ex.repos name = some r →
      (r.isTDD = true →
        (dictGet ((merge_formatted_stats_data ex nw).1).repos name).map RepoRecord.isTDD =
          some true) ∧
      (r.isDevOps = true →
        (dictGet ((merge_formatted_stats_data ex nw).1).repos name).map RepoRecord.isDevOps =
          some true)) := by
  refine ⟨?_, ?_, ?_⟩
  · intro rec fetched_data
    unfold search_fetched_data_for_tdd_key_words
    constructor
    · split <;> (try split) <;> rfl
    · intro hh
      simp [hh]
  · intro rec fetched_data is_workflow
    unfold search_fetched_data_for_devop_key_words
    constructor
    · split <;> (try split) <;> (try split) <;> rfl
    · intro hh
      simp [hh]
  · intro ex nw name r hget
    cases htop : topRangesOk ex nw with
    | false =>
      have hrepos : (merge_formatted_stats_data ex nw).1 = ex := by
        simp [merge_formatted_stats_data, htop]
      rw [hrepos, hget]
      exact ⟨fun hh => by simp [Option.map, hh], fun hh => by simp [Option.map, hh]⟩
    | true =>
      have hrepos : ((merge_formatted_stats_data ex nw).1).repos =
          nw.repos.foldl (fun a p => mergeRepoEntry a p.1 p.2) ex.repos := by
        simp [merge_formatted_stats_data, htop]
      obtain ⟨r', h1, h2, h3⟩ := mergeRepos_preserve_flags nw.repos ex.repos name r hget
      rw [hrepos, h1]
      exact ⟨fun hh => by simp [Option.map, h2 hh], fun hh => by simp [Option.map, h3 hh]⟩

/-- Instance of `classification_flags_sticky` at a record whose flags are
both set: re-running the TDD search on fresh evidence keeps `isTDD`, the
DevOps search keeps `isDevOps`, and an accepted merge with a re-fetch of the
same repository keeps `isTDD` set. -/
theorem classification_flags_sticky_witness :
    (search_fetched_data_for_tdd_key_words
      { dateRange := [(some "2023-09-10", some "2023-09-05")]
        totalCommitsInDateRange := 4
        totalRepoCommits := 9
        isTDD := true
        isDevOps := true
        languages := [] } ["refactor: no evidence here"]).isTDD = true ∧
    (search_fetched_data_for_devop_key_words
      { dateRange := [(some "2023-09-10", some "2023-09-05")]
        totalCommitsInDateRange := 4
        totalRepoCommits := 9
        isTDD := true
        isDevOps := true
        languages := [] } ["refactor: no evidence here"] true).isDevOps = true ∧
    (dictGet ((merge_formatted_stats_data
        { dateRange := [(some "2023-09-10", some "2023-09-05")]
          totalRepoCount := 1
          repos := [("bob/repo2",
            { dateRange := [(some "2023-09-10", some "2023-09-05")]
              totalCommitsInDateRange := 4
              totalRepoCommits := 9
              isTDD := true
              isDevOps := true
              languages := [] })] }
        { dateRange := [(some "2023-09-04", some "2023-09-01")]
          totalRepoCount := 1
          repos := [("bob/repo2",
            { dateRange := [(some "2023-09-04", some "2023-09-01")]
              totalCommitsInDateRange := 1
              totalRepoCommits := 10
              isTDD := false
              isDevOps := false
              languages := [] })] }).1).repos "bob/repo2").map RepoRecord.isTDD =
      some true :=
  ⟨(classification_flags_sticky.1
      { dateRange := [(some "2023-09-10", some "2023-09-05")]
        totalCommitsInDateRange := 4
        totalRepoCommits := 9
        isTDD := true
        isDevOps := true
        languages := [] } ["refactor: no evidence here"]).2 rfl,
   (classification_flags_sticky.2.1
      { dateRange := [(some "2023-09-10", some "2023-09-05")]
        totalCommitsInDateRange := 4
        totalRepoCommits := 9
        isTDD := true
        isDevOps := true
        languages := [] } ["refactor: no evidence here"] true).2 rfl,
   (classification_flags_sticky.2.2
      { dateRange := [(some "2023-09-10", some "2023-09-05")]
        totalRepoCount := 1
        repos := [("bob/repo2",
          { dateRange := [(some "2023-09-10", some "2023-09-05")]
            totalCommitsInDateRange := 4
            totalRepoCommits := 9
            isTDD := true
            isDevOps := true
            languages := [] })] }
      { dateRange := [(some "2023-09-04", some "2023-09-01")]
        totalRepoCount := 1
        repos := [("bob/repo2",
          { dateRange := [(some "2023-09-04", some "2023-09-01")]
            totalCommitsInDateRange := 1
            totalRepoCommits := 10
            isTDD := false
            isDevOps := false
            languages := [] })] } "bob/repo2"
      { dateRange := [(some "2023-09-10", some "2023-09-05")]
        totalCommitsInDateRange := 4
        totalRepoCommits := 9
        isTDD := true
        isDevOps := true
        languages := [] } (by decide)).1 rfl⟩

/-- DevOps classification only fires on repositories already classified TDD:
when `isTDD` is unset the search leaves the record untouched; when it is set
(and `isDevOps` is not yet), workflow-file evidence is matched against
`DEVOPS_STR_MATCHES` with its final keyword excluded — and that final keyword
is `'.YML'`.  In particular a repository whose only evidence is the workflow
file name `deploy.yml` keeps `isDevOps = false` whenever `isTDD` was not
already established. -/
theorem devops_only_with_tdd :
    (∀ (rec : RepoRecord) (fetched_data : List String) (is_workflow : Bool),
      rec.isTDD = false →
      search_fetched_data_for_devop_key_words rec fetched_data is_workflow = rec) ∧
    (∀ (rec : RepoRecord) (fetched_data : List String),
      rec.isTDD = true → rec.isDevOps = false →
      (search_fetched_data_for_devop_key_words rec fetched_data true).isDevOps =
        keyword_hit DEVOPS_STR_MATCHES.dropLast fetched_data) ∧
    DEVOPS_STR_MATCHES.getLast? = some ".YML" ∧
    (∀ (rec : RepoRecord), rec.isTDD = false →
      search_fetched_data_for_devop_key_words rec ["deploy.yml"] true = rec) := by
  refine ⟨?_, ?_, by decide, ?_⟩
  · intro rec fetched_data is_workflow h
    simp [search_fetched_data_for_devop_key_words, h]
  · intro rec fetched_data h1 h2
    simp only [search_fetched_data_for_devop_key_words, h1, h2, Bool.not_false,
      Bool.and_self, if_true]
    cases hk : keyword_hit DEVOPS_STR_MATCHES.dropLast fetched_data <;> simp [hk, h2]
  · intro rec h
    simp [search_fetched_data_for_devop_key_words, h]

/-- Instance of `devops_only_with_tdd`: with `isTDD` unset, `deploy.yml`
leaves the record unchanged; with `isTDD` set, the workflow search consults
the `'.YML'`-free keyword list. -/
theorem devops_only_with_tdd_witness :
    search_fetched_data_for_devop_key_words
      { dateRange := [(some "2023-10-10", some "2023-10-05")]
        totalCommitsInDateRange := 1
        totalRepoCommits := 2
        isTDD := false
        isDevOps := false
        languages := [("Rust", 5)] } ["deploy.yml"] true =
      { dateRange := [(some "2023-10-10", some "2023-10-05")]
        totalCommitsInDateRange := 1
        totalRepoCommits := 2
        isTDD := false
        isDevOps := false
        languages := [("Rust", 5)] } ∧
    (search_fetched_data_for_devop_key_words
      { dateRange := [(some "2023-10-10", some "2023-10-05")]
        totalCommitsInDateRange := 1
        totalRepoCommits := 2
        isTDD := true
        isDevOps := false
        languages := [("Rust", 5)] } ["deploy.yml"] true).isDevOps =
      keyword_hit DEVOPS_STR_MATCHES.dropLast ["deploy.yml"] :=
  ⟨devops_only_with_tdd.1
      { dateRange := [(some "2023-10-10", some "2023-10-05")]
        totalCommitsInDateRange := 1
        totalRepoCommits := 2
        isTDD := false
        isDevOps := false
        languages := [("Rust", 5)] } ["deploy.yml"] true rfl,
   devops_only_with_tdd.2.1
      { dateRange := [(some "2023-10-10", some "2023-10-05")]
        totalCommitsInDateRange := 1
        totalRepoCommits := 2
        isTDD := true
        isDevOps := false
        languages := [("Rust", 5)] } ["deploy.yml"] rfl rfl⟩
